import Mathlib

/- Formal model of the capability-routing and execution pipeline of the
   malackathon25 backend (app/back/services/ai_service.py together with
   app/back/services/agents/ and app/back/routers/ai.py).

   External collaborators (every LLM call and every tool call) are modelled
   as explicit oracle parameters of type Except String _ : Except.ok is the
   call returning normally, Except.error is the call raising an exception
   whose message is the payload.  The LangGraph driver is modelled as the
   sequential interpreter of the compiled graph: the conditional-edge
   functions choose the next node and a routing target absent from a node's
   edge map makes the run fail (modelled as none), exactly as the compiled
   graph would raise.  specialist_summaries is an operator.add reducer
   channel (ai_service.py line 48) whose value the nodes receive by
   reference and return as part of the full state, so every graph superstep
   re-adds the accumulated list to the channel; chat_stream instead calls
   the node methods directly on a plain dict, with no reducer. -/

/-- One chat message of the conversation history (role, content). -/
structure ChatMsg where
  role : String
  content : String
  deriving DecidableEq

/-- Capability Identifier registry: the four specialist names accepted by
OrchestratorAgent._analyze_query (orchestrator.py line 134). -/
def validSpecialists : List String :=
  ["sql_specialist", "search_specialist", "python_specialist", "diagram_specialist"]

/-- One entry of specialist_summaries: the TaskResult dict that every
specialist execute() returns (specialist, summary, tool_used, error flag,
has_code flag; the source dicts simply omit error / has_code when false). -/
structure SummaryEntry where
  specialist : String
  summary : String
  tool_used : String
  error : Bool
  has_code : Bool
  deriving DecidableEq

/-- AgentState (ai_service.py lines 38-51). -/
structure AgentState where
  user_query : String
  chat_history : List ChatMsg
  routing_decision : List String
  specialist_summaries : List SummaryEntry
  final_response : String
  tools_used : List String
  has_errors : Bool
  deriving DecidableEq

/-- Registry filter of OrchestratorAgent._analyze_query (orchestrator.py
line 135): specialists = [s for s in specialists if s in valid_specialists]. -/
def validateProposal (proposal : List String) : List String :=
  proposal.filter (fun s => decide (s ∈ validSpecialists))

/-- OrchestratorAgent._analyze_query (orchestrator.py lines 79-142), with the
classification collaborator's reply already parsed into the proposed list of
specialist names (the source obtains that list by comma-splitting and
stripping the raw LLM text; that transport format is outside the model).
After filtering against the registry, an empty list falls back to
["sql_specialist"] (lines 137-140). -/
def analyzeQuery (proposal : List String) : List String :=
  let specialists := validateProposal proposal
  if specialists.isEmpty then ["sql_specialist"] else specialists

/-- OrchestratorAgent.route (orchestrator.py lines 53-77): any exception from
the classification collaborator is caught and the fallback is
["sql_specialist"]. -/
def route (orc : Except String (List String)) : List String :=
  match orc with
  | Except.ok proposal => analyzeQuery proposal
  | Except.error _ => ["sql_specialist"]

/-- Collaborators of SQLSpecialistAgent.execute: the OracleRAGTool._run call
and the summarizer llm.invoke call. -/
structure SqlEnv where
  toolRun : Except String String
  summarize : Except String String

/-- SQLSpecialistAgent._summarize_database_result (sql_specialist.py lines
103-163): the summarizer LLM reply, stripped; if that call raises, the
fallback embeds the first 200 characters of the raw database result. -/
def summarizeDatabaseResult (env : SqlEnv) (raw : String) : String :=
  match env.summarize with
  | Except.ok s => s.trim
  | Except.error _ => "Consulta ejecutada. Resultados: " ++ raw.take 200 ++ "..."

/-- TaskResult of SQLSpecialistAgent.execute (sql_specialist.py lines
57-101): a raised tool exception degrades to an error-flagged entry. -/
def sqlEntry (env : SqlEnv) : SummaryEntry :=
  match env.toolRun with
  | Except.ok raw =>
    { specialist := "database", summary := summarizeDatabaseResult env raw,
      tool_used := "oracle_database_query", error := false, has_code := false }
  | Except.error e =>
    { specialist := "database",
      summary := "No se pudo consultar la base de datos: " ++ e,
      tool_used := "oracle_database_query", error := true, has_code := false }

/-- SQLSpecialistAgent.execute returns a singleton specialist_summaries
list in every branch. -/
def sqlSpecialistExecute (env : SqlEnv) : List SummaryEntry := [sqlEntry env]

/-- Collaborators of SearchSpecialistAgent.execute: the InternetSearchTool
call and the summarizer llm.invoke call. -/
structure SearchEnv where
  toolRun : Except String String
  summarize : Except String String

/-- SearchSpecialistAgent._summarize_search_result (search_specialist.py):
the summarizer LLM reply, stripped; on a raised summarizer call the fallback
embeds the first 200 characters of the raw search result. -/
def summarizeSearchResult (env : SearchEnv) (raw : String) : String :=
  match env.summarize with
  | Except.ok s => s.trim
  | Except.error _ =>
    "Búsqueda completada. Información encontrada: " ++ raw.take 200 ++ "..."

/-- TaskResult of SearchSpecialistAgent.execute (search_specialist.py lines
57-101). -/
def searchEntry (env : SearchEnv) : SummaryEntry :=
  match env.toolRun with
  | Except.ok raw =>
    { specialist := "internet_search", summary := summarizeSearchResult env raw,
      tool_used := "internet_search", error := false, has_code := false }
  | Except.error e =>
    { specialist := "internet_search",
      summary := "No se pudo realizar la búsqueda: " ++ e,
      tool_used := "internet_search", error := true, has_code := false }

/-- SearchSpecialistAgent.execute returns a singleton list in every branch. -/
def searchSpecialistExecute (env : SearchEnv) : List SummaryEntry := [searchEntry env]

/-- Collaborators of PythonSpecialistAgent.execute: the code-generating
llm.invoke, the PythonExecutorTool._run call and the summarizer llm.invoke. -/
structure PyEnv where
  gencode : Except String String
  execRun : Except String String
  summarize : Except String String

/-- Markdown-fence cleaning of the generated Python code
(python_specialist.py lines 148-153); the cleaned code only feeds the
executor tool and the summarizer prompt, never a TaskResult. -/
def cleanPythonCode (content : String) : String :=
  (((content.trim).replace "```python" "").replace "```" "").trim

/-- PythonSpecialistAgent._summarize_python_result (python_specialist.py):
the summarizer LLM reply, stripped; on a raised summarizer call the fallback
embeds the first 200 characters of the raw execution result. -/
def summarizePythonResult (env : PyEnv) (raw : String) : String :=
  match env.summarize with
  | Except.ok s => s.trim
  | Except.error _ => "Análisis completado. Resultados: " ++ raw.take 200 ++ "..."

/-- TaskResult of PythonSpecialistAgent.execute (python_specialist.py lines
57-106): a raise in either the code-generation call or the executor call is
caught by the outer handler and degrades to an error-flagged entry. -/
def pythonEntry (env : PyEnv) : SummaryEntry :=
  match env.gencode with
  | Except.error e =>
    { specialist := "python_analysis",
      summary := "No se pudo ejecutar el análisis: " ++ e,
      tool_used := "python_executor", error := true, has_code := false }
  | Except.ok _ =>
    match env.execRun with
    | Except.error e =>
      { specialist := "python_analysis",
        summary := "No se pudo ejecutar el análisis: " ++ e,
        tool_used := "python_executor", error := true, has_code := false }
    | Except.ok raw =>
      { specialist := "python_analysis", summary := summarizePythonResult env raw,
        tool_used := "python_executor", error := false, has_code := false }

/-- PythonSpecialistAgent.execute returns a singleton list in every branch. -/
def pythonSpecialistExecute (env : PyEnv) : List SummaryEntry := [pythonEntry env]

/-- Collaborators of DiagramSpecialistAgent.execute: the diagram-generating
llm.invoke and the description llm.invoke. -/
structure DiagramEnv where
  gen : Except String String
  describe : Except String String

/-- Markdown-fence cleaning of the generated Mermaid code
(diagram_specialist.py line 163). -/
def cleanMermaid (content : String) : String :=
  (((content.trim).replace "```mermaid" "").replace "```" "").trim

/-- TaskResult of DiagramSpecialistAgent.execute (diagram_specialist.py lines
54-101): on success the summary is the description followed by the Mermaid
source wrapped in a code fence (line 79 and lines 163-166); a raised
description call is caught inside _generate_diagram_description with a fixed
fallback sentence (line 221); a raised diagram-generation call degrades to an
error-flagged entry. -/
def diagramEntry (env : DiagramEnv) : SummaryEntry :=
  match env.gen with
  | Except.error e =>
    { specialist := "diagram_visualization",
      summary := "No se pudo generar el diagrama: " ++ e,
      tool_used := "mermaid_diagram", error := true, has_code := false }
  | Except.ok content =>
    let mermaidCode := "```mermaid\n" ++ cleanMermaid content ++ "\n```"
    let description :=
      match env.describe with
      | Except.ok d => d.trim
      | Except.error _ => "Diagrama generado para visualizar la información solicitada."
    { specialist := "diagram_visualization",
      summary := description ++ "\n\n" ++ mermaidCode,
      tool_used := "mermaid_diagram", error := false, has_code := true }

/-- DiagramSpecialistAgent.execute returns a singleton list in every branch. -/
def diagramSpecialistExecute (env : DiagramEnv) : List SummaryEntry := [diagramEntry env]

/-- The collaborator oracles of the four registered capability handlers. -/
structure Envs where
  sql : SqlEnv
  search : SearchEnv
  python : PyEnv
  diagram : DiagramEnv

/-- Dispatch of a capability identifier to its handler's specialist_summaries
output; an unknown name produces nothing (in the streaming loop no node is
executed for it, and in the graph no node exists for it). -/
def handlerOutput (envs : Envs) (name : String) : List SummaryEntry :=
  if name = "sql_specialist" then sqlSpecialistExecute envs.sql
  else if name = "search_specialist" then searchSpecialistExecute envs.search
  else if name = "python_specialist" then pythonSpecialistExecute envs.python
  else if name = "diagram_specialist" then diagramSpecialistExecute envs.diagram
  else []

/-- The single TaskResult a registered handler produces. -/
def entryOf (envs : Envs) (name : String) : SummaryEntry :=
  if name = "sql_specialist" then sqlEntry envs.sql
  else if name = "search_specialist" then searchEntry envs.search
  else if name = "python_specialist" then pythonEntry envs.python
  else diagramEntry envs.diagram

/-- The specialist tag each handler writes into its TaskResult. -/
def specialistLabel (name : String) : String :=
  if name = "sql_specialist" then "database"
  else if name = "search_specialist" then "internet_search"
  else if name = "python_specialist" then "python_analysis"
  else "diagram_visualization"

/-- Human-readable specialist names of chat_stream (ai_service.py lines
422-427); specialist_names.get(s, s) falls back to the identifier itself. -/
def specialistDisplay (s : String) : String :=
  if s = "sql_specialist" then "Base de Datos"
  else if s = "search_specialist" then "Búsqueda en Internet"
  else if s = "python_specialist" then "Análisis Estadístico"
  else if s = "diagram_specialist" then "Generación de Diagramas"
  else s

/-- The initial AgentState of chat and chat_stream (ai_service.py lines
402-410 and 545-553). -/
def initialState (q : String) (hist : List ChatMsg) : AgentState :=
  { user_query := q, chat_history := hist, routing_decision := [],
    specialist_summaries := [], final_response := "", tools_used := [],
    has_errors := false }

/-- AIService._orchestrator_node (ai_service.py lines 207-213). -/
def orchestratorNode (orc : Except String (List String)) (s : AgentState) : AgentState :=
  { s with routing_decision := route orc }

/-- AIService._route_to_specialists (ai_service.py lines 215-232). -/
def routeToSpecialists (s : AgentState) : String :=
  match s.routing_decision with
  | [] => "synthesizer"
  | c :: _ => c

/-- AIService._route_to_next_specialist (ai_service.py lines 234-258):
identical head-of-queue logic. -/
def routeToNextSpecialist (s : AgentState) : String :=
  match s.routing_decision with
  | [] => "synthesizer"
  | c :: _ => c

/-- The common body of the four specialist nodes (ai_service.py lines
260-334): run the handler, rebind routing_decision to a copy with the node's
own first occurrence removed (list.remove removes the first occurrence and is
skipped when absent, which List.erase models exactly), and append the
handler's summaries. -/
def specialistNode (envs : Envs) (name : String) (s : AgentState) : AgentState :=
  { s with
    routing_decision := s.routing_decision.erase name,
    specialist_summaries := s.specialist_summaries ++ handlerOutput envs name }

/-- The value SynthesizerAgent.synthesize returns (synthesizer.py lines
84-99), without the specialist_count debug field. -/
structure SynthRes where
  final_response : String
  tools_used : List String
  has_errors : Bool
  deriving DecidableEq

/-- SynthesizerAgent.synthesize (synthesizer.py lines 54-99): if the
generation collaborator returns, the response is its stripped text,
tools_used maps every summary's tool_used field (each handler sets the key in
every branch) and has_errors is true iff some summary carries the error flag;
if the generation collaborator raises, the outer except returns an
error-message response with empty tools_used and has_errors true. -/
def synthesize (genv : Except String String) (s : AgentState) : SynthRes :=
  match genv with
  | Except.ok resp =>
    { final_response := resp.trim,
      tools_used := s.specialist_summaries.map (fun e => e.tool_used),
      has_errors := s.specialist_summaries.any (fun e => e.error) }
  | Except.error e =>
    { final_response := "Error al generar la respuesta: " ++ e,
      tools_used := [], has_errors := true }

/-- AIService._synthesizer_node (ai_service.py lines 336-354). -/
def synthesizerNode (genv : Except String String) (s : AgentState) : AgentState :=
  let r := synthesize genv s
  { s with final_response := r.final_response, tools_used := r.tools_used,
           has_errors := r.has_errors }

/-- The edge map of the compiled graph (ai_service.py lines 137-198): from
the orchestrator every specialist and the synthesizer are reachable; from a
specialist every other specialist and the synthesizer are reachable, but not
the specialist itself. -/
def graphEdgeTargets (node : String) : List String :=
  if node = "orchestrator" then validSpecialists ++ ["synthesizer"]
  else validSpecialists.filter (fun c => c != node) ++ ["synthesizer"]

/-- One compiled-graph superstep of a specialist node under the channel
semantics of AgentState: specialist_summaries is declared
Annotated[List, operator.add] (ai_service.py line 48), so it is a reducer
channel.  The node receives the channel's list by reference, extends it in
place with its handler's TaskResult (ai_service.py line 275) and returns the
full state; LangGraph then applies the reducer, adding the returned —
already extended — list to the channel's value, which duplicates it.
routing_decision is a plain last-value channel and is simply overwritten
with the copy minus the node's own first occurrence (lines 266-269). -/
def graphSpecialistStep (envs : Envs) (name : String) (s : AgentState) : AgentState :=
  { s with
    routing_decision := s.routing_decision.erase name,
    specialist_summaries :=
      (s.specialist_summaries ++ handlerOutput envs name)
        ++ (s.specialist_summaries ++ handlerOutput envs name) }

/-- One compiled-graph superstep of the synthesizer node (ai_service.py
lines 336-354 under the channel semantics): synthesize reads the state the
node received; the node returns the full state, so the operator.add reducer
doubles the untouched summaries channel once more, while the plain
final_response, tools_used and has_errors channels are overwritten. -/
def graphSynthesizerStep (genv : Except String String) (s : AgentState) : AgentState :=
  let r := synthesize genv s
  { s with
    final_response := r.final_response,
    tools_used := r.tools_used,
    has_errors := r.has_errors,
    specialist_summaries :=
      s.specialist_summaries ++ s.specialist_summaries }

/-- The specialist_summaries channel value after the compiled graph has
drained the queue R starting from channel value L: one graphSpecialistStep
per queue element. -/
def reducerFold (envs : Envs) : List String → List SummaryEntry → List SummaryEntry
  | [], L => L
  | c :: rest, L =>
    reducerFold envs rest
      ((L ++ handlerOutput envs c) ++ (L ++ handlerOutput envs c))

/-- Sequential interpreter of the compiled LangGraph workflow from a given
node: a specialist superstep runs (handler execution plus the operator.add
reducer on specialist_summaries), then _route_to_next_specialist picks the
next node, which must be in the current node's edge map, otherwise the run
raises (none); the synthesizer superstep ends the run.  Fuel bounds the
recursion. -/
def runGraph (envs : Envs) (genv : Except String String) :
    Nat → String → AgentState → Option AgentState
  | 0, _, _ => none
  | fuel + 1, node, s =>
    if node = "synthesizer" then some (graphSynthesizerStep genv s)
    else if node ∈ validSpecialists then
      if routeToNextSpecialist (graphSpecialistStep envs node s) ∈ graphEdgeTargets node then
        runGraph envs genv fuel (routeToNextSpecialist (graphSpecialistStep envs node s))
          (graphSpecialistStep envs node s)
      else none
    else none

/-- The graph execution of workflow.invoke after the orchestrator has set the
validated Routing Decision R: _route_to_specialists picks the entry node from
the orchestrator's edge map and the specialist chain runs to the
synthesizer, each superstep applying the operator.add reducer to the
specialist_summaries channel.  The orchestrator superstep itself leaves the
initially empty summaries channel empty ([] ++ [] = []). -/
def workflowFromRouting (envs : Envs) (genv : Except String String)
    (R : List String) (q : String) (hist : List ChatMsg) : Option AgentState :=
  let s1 := { initialState q hist with routing_decision := R }
  let first := routeToSpecialists s1
  if first ∈ graphEdgeTargets "orchestrator" then
    runGraph envs genv (R.length + 1) first s1
  else none

/-- The dict AIService.chat returns (ai_service.py lines 572-588). -/
structure ChatResult where
  response : String
  specialist_summaries : List SummaryEntry
  tools_used : List String
  has_errors : Bool
  deriving DecidableEq

/-- AIService.chat (ai_service.py lines 514-588): orchestrator routing then
the graph run; any exception escaping the workflow is caught and mapped to an
error response with empty lists and has_errors true. -/
def chatService (orc : Except String (List String)) (envs : Envs)
    (genv : Except String String) (message : String) (hist : List ChatMsg) : ChatResult :=
  match workflowFromRouting envs genv (route orc) message hist with
  | some fs =>
    { response := fs.final_response, specialist_summaries := fs.specialist_summaries,
      tools_used := fs.tools_used, has_errors := fs.has_errors }
  | none =>
    { response := "Lo siento, ocurrió un error al procesar tu mensaje.",
      specialist_summaries := [], tools_used := [], has_errors := true }

/-- The AIChatResponse schema of the non-streaming endpoint (schemas.py lines
144-155); intermediate steps are modelled as plain strings. -/
structure AIChatResponse where
  response : String
  tool_calls : List String
  intermediate_steps : List String
  deriving DecidableEq

/-- The POST /ai/chat handler (routers/ai.py lines 144-189): it forwards
response and tools_used and always passes intermediate_steps=[]. -/
def chatEndpoint (orc : Except String (List String)) (envs : Envs)
    (genv : Except String String) (message : String) (hist : List ChatMsg) : AIChatResponse :=
  let result := chatService orc envs genv message hist
  { response := result.response, tool_calls := result.tools_used,
    intermediate_steps := [] }

/-- A progress event frame of chat_stream (ai_service.py lines 379-499). -/
inductive SSEvent where
  | thinking (message : String)
  | routing (specialists : List String) (message : String)
  | specialist_start (specialist : String) (message : String)
  | specialist_complete (specialist : String) (message : String)
  | synthesizing (message : String)
  | complete (response : String) (tools_used : List String) (has_errors : Bool)
  | error (message : String)
  deriving DecidableEq

/-- The seven event type tags of the streaming protocol. -/
inductive EvTag where
  | thinking
  | routing
  | specialist_start
  | specialist_complete
  | synthesizing
  | complete
  | error
  deriving DecidableEq

/-- The type field of an event frame. -/
def SSEvent.etype : SSEvent → EvTag
  | SSEvent.thinking _ => EvTag.thinking
  | SSEvent.routing _ _ => EvTag.routing
  | SSEvent.specialist_start _ _ => EvTag.specialist_start
  | SSEvent.specialist_complete _ _ => EvTag.specialist_complete
  | SSEvent.synthesizing _ => EvTag.synthesizing
  | SSEvent.complete _ _ _ => EvTag.complete
  | SSEvent.error _ => EvTag.error

/-- The specialist carried by a specialist_start frame. -/
def SSEvent.startName : SSEvent → Option String
  | SSEvent.specialist_start c _ => some c
  | _ => none

/-- The specialist carried by a specialist_complete frame. -/
def SSEvent.completeName : SSEvent → Option String
  | SSEvent.specialist_complete c _ => some c
  | _ => none

/-- The payload (response, tools_used, has_errors) of a complete frame. -/
def SSEvent.completeData : SSEvent → Option (String × List String × Bool)
  | SSEvent.complete r t e => some (r, t, e)
  | _ => none

/-- The message of an error frame. -/
def SSEvent.errorData : SSEvent → Option String
  | SSEvent.error m => some m
  | _ => none

/-- Message of a specialist_start frame (ai_service.py line 447). -/
def startMsg (c : String) : String := "🔍 " ++ specialistDisplay c ++ " trabajando..."

/-- Message of a specialist_complete frame (ai_service.py line 464). -/
def completeMsg (c : String) : String := "✓ " ++ specialistDisplay c ++ " completado"

/-- One iteration of the chat_stream specialist loop body (ai_service.py
lines 450-458): the if/elif chain executes the matching node and leaves the
state untouched for any other name. -/
def streamStepNode (envs : Envs) (c : String) (s : AgentState) : AgentState :=
  if c ∈ validSpecialists then specialistNode envs c s else s

/-- The chat_stream specialist loop (ai_service.py lines 440-466): it
iterates the routing list object captured before any specialist runs, emits a
specialist_start and a specialist_complete frame around each execution, and
threads the mutated state. -/
def streamLoop (envs : Envs) : List String → AgentState → List SSEvent × AgentState
  | [], s => ([], s)
  | c :: rest, s =>
    let s1 := streamStepNode envs c s
    let p := streamLoop envs rest s1
    (SSEvent.specialist_start c (startMsg c) ::
       SSEvent.specialist_complete c (completeMsg c) :: p.1,
     p.2)

/-- AIService.chat_stream after the orchestrator produced the validated
Routing Decision R (ai_service.py lines 379-489): two thinking frames, the
routing frame, the specialist loop, the synthesizing frame, then the complete
frame carrying the synthesizer's response, tools_used and has_errors.  The
pair also returns the final AgentState.  Nothing in the body can raise in
this model, so the except branch emitting an error frame (lines 491-499) is
not reached. -/
def chatStreamFromRouting (envs : Envs) (genv : Except String String)
    (R : List String) (q : String) (hist : List ChatMsg) :
    List SSEvent × AgentState :=
  let s1 := { initialState q hist with routing_decision := R }
  let routingMsg := "Consultando: " ++ String.intercalate ", " (R.map specialistDisplay)
  let p := streamLoop envs R s1
  let s3 := synthesizerNode genv p.2
  (SSEvent.thinking "Analizando tu pregunta..." ::
     SSEvent.thinking "Determinando qué especialistas deben intervenir..." ::
     SSEvent.routing R routingMsg ::
     (p.1 ++ [SSEvent.synthesizing "Integrando toda la información...",
              SSEvent.complete s3.final_response s3.tools_used s3.has_errors]),
   s3)

/-- AIService.chat_stream: orchestrator routing followed by the streaming
pipeline. -/
def chatStreamService (orc : Except String (List String)) (envs : Envs)
    (genv : Except String String) (q : String) (hist : List ChatMsg) :
    List SSEvent × AgentState :=
  chatStreamFromRouting envs genv (route orc) q hist

/-- Forbidden-marker scan used to state the sanitization property: whether
the marker occurs as a contiguous substring of the text, at the character
level. -/
def containsMarker (marker text : String) : Bool :=
  decide (marker.toList <:+: text.toList)

/- Auxiliary lemmas about the registry and the handlers. -/

/-- Case analysis on membership in the capability registry. -/
lemma mem_validSpecialists {c : String} (h : c ∈ validSpecialists) :
    c = "sql_specialist" ∨ c = "search_specialist" ∨
      c = "python_specialist" ∨ c = "diagram_specialist" := by
  simpa [validSpecialists] using h

/-- A registered handler always emits exactly its single TaskResult. -/
lemma handlerOutput_valid (envs : Envs) {c : String} (h : c ∈ validSpecialists) :
    handlerOutput envs c = [entryOf envs c] := by
  rcases mem_validSpecialists h with rfl | rfl | rfl | rfl <;> rfl

/-- An unknown capability name produces no TaskResult. -/
lemma handlerOutput_invalid (envs : Envs) {c : String} (h : c ∉ validSpecialists) :
    handlerOutput envs c = [] := by
  simp only [validSpecialists, List.mem_cons, List.mem_singleton, not_or] at h
  obtain ⟨h1, h2, h3, h4⟩ := h
  simp [handlerOutput, h1, h2, h3, h4]

/-- The SQL specialist tags its TaskResult "database" in every branch. -/
lemma sqlEntry_specialist (env : SqlEnv) : (sqlEntry env).specialist = "database" := by
  rcases env with ⟨t, m⟩; cases t <;> rfl

/-- The search specialist tags its TaskResult "internet_search" in every branch. -/
lemma searchEntry_specialist (env : SearchEnv) :
    (searchEntry env).specialist = "internet_search" := by
  rcases env with ⟨t, m⟩; cases t <;> rfl

/-- The Python specialist tags its TaskResult "python_analysis" in every branch. -/
lemma pythonEntry_specialist (env : PyEnv) :
    (pythonEntry env).specialist = "python_analysis" := by
  rcases env with ⟨g, x, m⟩; cases g <;> cases x <;> rfl

/-- The diagram specialist tags its TaskResult "diagram_visualization" in
every branch. -/
lemma diagramEntry_specialist (env : DiagramEnv) :
    (diagramEntry env).specialist = "diagram_visualization" := by
  rcases env with ⟨g, d⟩; cases g <;> rfl

/-- Each registered handler's TaskResult carries that handler's tag. -/
lemma entryOf_specialist (envs : Envs) {c : String} (h : c ∈ validSpecialists) :
    (entryOf envs c).specialist = specialistLabel c := by
  rcases mem_validSpecialists h with rfl | rfl | rfl | rfl
  · exact sqlEntry_specialist envs.sql
  · exact searchEntry_specialist envs.search
  · exact pythonEntry_specialist envs.python
  · exact diagramEntry_specialist envs.diagram

/-- Over a registry-valid queue, a handler run per element yields exactly one
TaskResult per element. -/
lemma flatMap_handlerOutput_eq (envs : Envs) :
    ∀ R : List String, (∀ c ∈ R, c ∈ validSpecialists) →
      R.flatMap (handlerOutput envs) = R.map (entryOf envs) := by
  intro R
  induction R with
  | nil => intro _; rfl
  | cons c rest ih =>
    intro h
    rw [List.flatMap_cons, List.map_cons, handlerOutput_valid envs (h c (by simp)),
      ih (fun x hx => h x (by simp [hx])), List.singleton_append]

/-- The specialist tags of the accumulated TaskResults match the queue. -/
lemma map_entryOf_specialist (envs : Envs) {R : List String}
    (hval : ∀ c ∈ R, c ∈ validSpecialists) :
    (R.map (entryOf envs)).map (fun e => e.specialist) = R.map specialistLabel := by
  rw [List.map_map]
  exact List.map_congr_left (fun x hx => entryOf_specialist envs (hval x hx))

/-- The synthesizer node does not change the accumulated TaskResults. -/
lemma synthesizerNode_summaries (genv : Except String String) (s : AgentState) :
    (synthesizerNode genv s).specialist_summaries = s.specialist_summaries := rfl

/-- The two head-of-queue routing functions coincide. -/
lemma routeToNext_eq (s : AgentState) : routeToNextSpecialist s = routeToSpecialists s := rfl

/-- Main graph lemma: from a state whose remaining queue is a registry-valid,
duplicate-free list R, the compiled graph drains R head-first, applying one
reducer superstep per element, and ends in the synthesizer superstep with
the summaries channel holding reducerFold of R. -/
lemma runGraph_spec (envs : Envs) (genv : Except String String) :
    ∀ R : List String, (∀ c ∈ R, c ∈ validSpecialists) → R.Nodup →
      ∀ (s : AgentState) (fuel : Nat), s.routing_decision = R → R.length + 1 ≤ fuel →
      runGraph envs genv fuel (routeToSpecialists s) s =
        some (graphSynthesizerStep genv
          { s with routing_decision := [],
                   specialist_summaries :=
                     reducerFold envs R s.specialist_summaries }) := by
  intro R
  induction R with
  | nil =>
    intro _ _ s fuel hs hf
    obtain ⟨f, rfl⟩ : ∃ f, fuel = f + 1 := ⟨fuel - 1, by omega⟩
    have hfirst : routeToSpecialists s = "synthesizer" := by
      simp [routeToSpecialists, hs]
    have hstate : ({ s with
        routing_decision := ([] : List String),
        specialist_summaries :=
          reducerFold envs [] s.specialist_summaries }
          : AgentState) = s := by
      rcases s with ⟨q, h, rd, sums, fr, tu, he⟩
      simp only [AgentState.mk.injEq] at hs ⊢
      simp [hs, reducerFold]
    rw [hfirst, hstate]
    simp [runGraph]
  | cons c rest ih =>
    intro hval hnd s fuel hs hf
    obtain ⟨f, rfl⟩ : ∃ f, fuel = f + 1 := ⟨fuel - 1, by omega⟩
    have hcval : c ∈ validSpecialists := hval c (by simp)
    have hrest : ∀ x ∈ rest, x ∈ validSpecialists := fun x hx => hval x (by simp [hx])
    rw [List.nodup_cons] at hnd
    have hfirst : routeToSpecialists s = c := by simp [routeToSpecialists, hs]
    have hcns : c ≠ "synthesizer" := by
      intro h; rw [h] at hcval; exact absurd hcval (by decide)
    have hco : c ≠ "orchestrator" := by
      intro h; rw [h] at hcval; exact absurd hcval (by decide)
    have hs1 : (graphSpecialistStep envs c s).routing_decision = rest := by
      simp [graphSpecialistStep, hs, List.erase_cons_head]
    have hmem : routeToNextSpecialist (graphSpecialistStep envs c s) ∈ graphEdgeTargets c := by
      rw [routeToNext_eq]
      cases hr : rest with
      | nil =>
        have h2 : routeToSpecialists (graphSpecialistStep envs c s) = "synthesizer" := by
          simp [routeToSpecialists, hs1, hr]
        rw [h2]; simp [graphEdgeTargets, hco]
      | cons d rest2 =>
        have h2 : routeToSpecialists (graphSpecialistStep envs c s) = d := by
          simp [routeToSpecialists, hs1, hr]
        have hdval : d ∈ validSpecialists := hrest d (by simp [hr])
        have hdc : d ≠ c := by
          intro h; apply hnd.1; rw [← h]; simp [hr]
        rw [h2]
        simp [graphEdgeTargets, hco, List.mem_append, List.mem_filter, hdval, hdc]
    have hfle : rest.length + 1 ≤ f := by
      simp only [List.length_cons] at hf; omega
    rw [hfirst]
    show (if c = "synthesizer" then some (graphSynthesizerStep genv s)
      else if c ∈ validSpecialists then
        if routeToNextSpecialist (graphSpecialistStep envs c s) ∈ graphEdgeTargets c then
          runGraph envs genv f (routeToNextSpecialist (graphSpecialistStep envs c s))
            (graphSpecialistStep envs c s)
        else none
      else none) = _
    rw [if_neg hcns, if_pos hcval, if_pos hmem, routeToNext_eq,
      ih hrest hnd.2 (graphSpecialistStep envs c s) f hs1 hfle]
    rfl

/-- The graph run on a registry-valid, duplicate-free Routing Decision
completes: the final state is the synthesizer superstep applied to the
reducer-accumulated summaries channel. -/
lemma workflowFromRouting_eq (envs : Envs) (genv : Except String String)
    (R : List String) (q : String) (hist : List ChatMsg)
    (hval : ∀ c ∈ R, c ∈ validSpecialists) (hnd : R.Nodup) :
    workflowFromRouting envs genv R q hist =
      some (graphSynthesizerStep genv
        { initialState q hist with
          routing_decision := [],
          specialist_summaries := reducerFold envs R [] }) := by
  have hmem : routeToSpecialists { initialState q hist with routing_decision := R }
      ∈ graphEdgeTargets "orchestrator" := by
    cases R with
    | nil =>
      have h1 : routeToSpecialists { initialState q hist with routing_decision := ([] : List String) }
          = "synthesizer" := rfl
      rw [h1]; decide
    | cons c rest =>
      have h1 : routeToSpecialists { initialState q hist with routing_decision := c :: rest }
          = c := rfl
      rw [h1]
      have hc : c ∈ validSpecialists := hval c (by simp)
      simp [graphEdgeTargets, List.mem_append, hc]
  unfold workflowFromRouting
  rw [if_pos hmem,
    runGraph_spec envs genv R hval hnd { initialState q hist with routing_decision := R }
      (R.length + 1) rfl (Nat.le_refl _)]
  rfl

/-- Size of the reducer-accumulated channel: every superstep doubles the
extended list, so draining R multiplies (|L| + 2) by 2 ^ |R|. -/
lemma reducerFold_length (envs : Envs) :
    ∀ (R : List String) (L : List SummaryEntry), (∀ c ∈ R, c ∈ validSpecialists) →
      (reducerFold envs R L).length + 2 = 2 ^ R.length * (L.length + 2) := by
  intro R
  induction R with
  | nil => intro L _; simp [reducerFold]
  | cons c rest ih =>
    intro L h
    have hout : (handlerOutput envs c).length = 1 := by
      rw [handlerOutput_valid envs (h c (by simp))]
      rfl
    rw [reducerFold, ih _ (fun x hx => h x (by simp [hx]))]
    simp [List.length_append, hout, List.length_cons, pow_succ]
    ring

/-- Membership in the reducer-accumulated channel: exactly the starting
entries and the handler outputs of the drained queue elements. -/
lemma reducerFold_mem (envs : Envs) :
    ∀ (R : List String) (L : List SummaryEntry) (e : SummaryEntry),
      e ∈ reducerFold envs R L ↔ e ∈ L ∨ ∃ x ∈ R, e ∈ handlerOutput envs x := by
  intro R
  induction R with
  | nil => intro L e; simp [reducerFold]
  | cons c rest ih =>
    intro L e
    rw [reducerFold, ih]
    simp [List.mem_append, List.mem_cons]
    tauto

/-- The synthesizer superstep doubles the summaries channel. -/
lemma graphSynthesizerStep_summaries (genv : Except String String) (s : AgentState) :
    (graphSynthesizerStep genv s).specialist_summaries =
      s.specialist_summaries ++ s.specialist_summaries := rfl

/-- The stream loop leaves the accumulated TaskResults of the threaded state
equal to the handler outputs of the iterated list, in iteration order. -/
lemma streamLoop_summaries (envs : Envs) :
    ∀ (R : List String) (s : AgentState),
      ((streamLoop envs R s).2).specialist_summaries =
        s.specialist_summaries ++ R.flatMap (handlerOutput envs) := by
  intro R
  induction R with
  | nil => intro s; simp [streamLoop]
  | cons c rest ih =>
    intro s
    by_cases hc : c ∈ validSpecialists
    · simp [streamLoop, streamStepNode, hc, ih, specialistNode,
        List.flatMap_cons, List.append_assoc]
    · simp [streamLoop, streamStepNode, hc, ih, List.flatMap_cons,
        handlerOutput_invalid envs hc]

/-- The stream loop emits exactly one specialist_start / specialist_complete
pair per iterated element, independent of the threaded state. -/
lemma streamLoop_events (envs : Envs) :
    ∀ (R : List String) (s : AgentState),
      (streamLoop envs R s).1 =
        R.flatMap (fun c =>
          [SSEvent.specialist_start c (startMsg c),
           SSEvent.specialist_complete c (completeMsg c)]) := by
  intro R
  induction R with
  | nil => intro s; rfl
  | cons c rest ih => intro s; simp [streamLoop, ih, List.flatMap_cons]

/-- Event tags of the loop frames. -/
lemma pairEvents_map_etype (R : List String) :
    (R.flatMap (fun c =>
        [SSEvent.specialist_start c (startMsg c),
         SSEvent.specialist_complete c (completeMsg c)])).map SSEvent.etype =
      R.flatMap (fun _ => [EvTag.specialist_start, EvTag.specialist_complete]) := by
  induction R with
  | nil => rfl
  | cons c rest ih => simp [List.flatMap_cons, ih, SSEvent.etype]

/-- The specialist_start frames of the loop carry the iterated list. -/
lemma pairEvents_filterMap_startName (R : List String) :
    (R.flatMap (fun c =>
        [SSEvent.specialist_start c (startMsg c),
         SSEvent.specialist_complete c (completeMsg c)])).filterMap SSEvent.startName = R := by
  induction R with
  | nil => rfl
  | cons c rest ih =>
    simp [List.flatMap_cons, List.filterMap_append, List.filterMap_cons,
      SSEvent.startName, ih]

/-- The specialist_complete frames of the loop carry the iterated list. -/
lemma pairEvents_filterMap_completeName (R : List String) :
    (R.flatMap (fun c =>
        [SSEvent.specialist_start c (startMsg c),
         SSEvent.specialist_complete c (completeMsg c)])).filterMap SSEvent.completeName = R := by
  induction R with
  | nil => rfl
  | cons c rest ih =>
    simp [List.flatMap_cons, List.filterMap_append, List.filterMap_cons,
      SSEvent.completeName, ih]

/-- The loop emits no complete frame. -/
lemma pairEvents_filterMap_completeData (R : List String) :
    (R.flatMap (fun c =>
        [SSEvent.specialist_start c (startMsg c),
         SSEvent.specialist_complete c (completeMsg c)])).filterMap SSEvent.completeData = [] := by
  induction R with
  | nil => rfl
  | cons c rest ih =>
    simp [List.flatMap_cons, List.filterMap_append, List.filterMap_cons,
      SSEvent.completeData, ih]

/-- The loop emits no error frame. -/
lemma pairEvents_filterMap_errorData (R : List String) :
    (R.flatMap (fun c =>
        [SSEvent.specialist_start c (startMsg c),
         SSEvent.specialist_complete c (completeMsg c)])).filterMap SSEvent.errorData = [] := by
  induction R with
  | nil => rfl
  | cons c rest ih =>
    simp [List.flatMap_cons, List.filterMap_append, List.filterMap_cons,
      SSEvent.errorData, ih]

/-- The final state of the streaming run accumulates exactly the handler
outputs of the Routing Decision, in order. -/
lemma chatStream_final_summaries (envs : Envs) (genv : Except String String)
    (R : List String) (q : String) (hist : List ChatMsg) :
    (chatStreamFromRouting envs genv R q hist).2.specialist_summaries =
      R.flatMap (handlerOutput envs) := by
  show (synthesizerNode genv _).specialist_summaries = _
  rw [synthesizerNode_summaries, streamLoop_summaries]
  rfl

/-- Event-tag sequence of the streaming run. -/
lemma chatStream_map_etype (envs : Envs) (genv : Except String String)
    (R : List String) (q : String) (hist : List ChatMsg) :
    ((chatStreamFromRouting envs genv R q hist).1).map SSEvent.etype =
      [EvTag.thinking, EvTag.thinking, EvTag.routing]
        ++ R.flatMap (fun _ => [EvTag.specialist_start, EvTag.specialist_complete])
        ++ [EvTag.synthesizing, EvTag.complete] := by
  show (SSEvent.thinking _ :: SSEvent.thinking _ :: SSEvent.routing _ _ ::
      ((streamLoop envs R _).1 ++ [SSEvent.synthesizing _, SSEvent.complete _ _ _])).map
        SSEvent.etype = _
  rw [streamLoop_events]
  simp [SSEvent.etype, pairEvents_map_etype]

/-- String append concatenates the character lists. -/
lemma toList_append (a b : String) : (a ++ b).toList = a.toList ++ b.toList := rfl

/-- Any marker that starts the Mermaid fence header occurs in every summary
built by appending a fenced Mermaid block to a description. -/
lemma containsMarker_fence (m a b : String)
    (h : m.toList <+: ("```mermaid\n").toList) :
    containsMarker m (a ++ "\n\n" ++ ("```mermaid\n" ++ b ++ "\n```")) = true := by
  unfold containsMarker
  rw [decide_eq_true_iff]
  obtain ⟨t, ht⟩ := h
  refine ⟨a.toList ++ ("\n\n").toList, t ++ (b.toList ++ ("\n```").toList), ?_⟩
  simp only [toList_append, List.append_assoc]
  rw [← ht]
  simp [List.append_assoc]

/-- The specialist_start frames of a full streaming run carry the Routing
Decision, in order. -/
lemma chatStream_filterMap_startName (envs : Envs) (genv : Except String String)
    (R : List String) (q : String) (hist : List ChatMsg) :
    ((chatStreamFromRouting envs genv R q hist).1).filterMap SSEvent.startName = R := by
  show (SSEvent.thinking _ :: SSEvent.thinking _ :: SSEvent.routing _ _ ::
      ((streamLoop envs R _).1 ++ [SSEvent.synthesizing _, SSEvent.complete _ _ _])).filterMap
        SSEvent.startName = R
  rw [streamLoop_events]
  simp [List.filterMap_cons, List.filterMap_append, SSEvent.startName,
    pairEvents_filterMap_startName]

/-- The specialist_complete frames of a full streaming run carry the Routing
Decision, in order. -/
lemma chatStream_filterMap_completeName (envs : Envs) (genv : Except String String)
    (R : List String) (q : String) (hist : List ChatMsg) :
    ((chatStreamFromRouting envs genv R q hist).1).filterMap SSEvent.completeName = R := by
  show (SSEvent.thinking _ :: SSEvent.thinking _ :: SSEvent.routing _ _ ::
      ((streamLoop envs R _).1 ++ [SSEvent.synthesizing _, SSEvent.complete _ _ _])).filterMap
        SSEvent.completeName = R
  rw [streamLoop_events]
  simp [List.filterMap_cons, List.filterMap_append, SSEvent.completeName,
    pairEvents_filterMap_completeName]

/-- A streaming run in this model never emits an error frame. -/
lemma chatStream_filterMap_errorData (envs : Envs) (genv : Except String String)
    (R : List String) (q : String) (hist : List ChatMsg) :
    ((chatStreamFromRouting envs genv R q hist).1).filterMap SSEvent.errorData = [] := by
  show (SSEvent.thinking _ :: SSEvent.thinking _ :: SSEvent.routing _ _ ::
      ((streamLoop envs R _).1 ++ [SSEvent.synthesizing _, SSEvent.complete _ _ _])).filterMap
        SSEvent.errorData = []
  rw [streamLoop_events]
  simp [List.filterMap_cons, List.filterMap_append, SSEvent.errorData,
    pairEvents_filterMap_errorData]

/-- The single complete frame of a streaming run carries the final state's
response, tools_used and has_errors. -/
lemma chatStream_filterMap_completeData (envs : Envs) (genv : Except String String)
    (R : List String) (q : String) (hist : List ChatMsg) :
    ((chatStreamFromRouting envs genv R q hist).1).filterMap SSEvent.completeData =
      [((chatStreamFromRouting envs genv R q hist).2.final_response,
        (chatStreamFromRouting envs genv R q hist).2.tools_used,
        (chatStreamFromRouting envs genv R q hist).2.has_errors)] := by
  show (SSEvent.thinking _ :: SSEvent.thinking _ :: SSEvent.routing _ _ ::
      ((streamLoop envs R _).1 ++ [SSEvent.synthesizing _, SSEvent.complete _ _ _])).filterMap
        SSEvent.completeData = _
  rw [streamLoop_events]
  simp [List.filterMap_cons, List.filterMap_append, SSEvent.completeData,
    pairEvents_filterMap_completeData]
  exact ⟨rfl, rfl, rfl⟩

/-- The Router never returns an empty Routing Decision. -/
lemma analyzeQuery_ne_nil (p : List String) : analyzeQuery p ≠ [] := by
  unfold analyzeQuery
  by_cases h : (validateProposal p).isEmpty = true
  · simp [h]
  · simp only [h, if_false]
    intro hh
    exact h (List.isEmpty_iff.mpr hh)

/-- Whatever the classification collaborator does, route is non-empty. -/
lemma route_ne_nil (orc : Except String (List String)) : route orc ≠ [] := by
  cases orc with
  | ok p => exact analyzeQuery_ne_nil p
  | error e => simp [route]

/- Concrete collaborator environments used by witnesses and counterexamples. -/

/-- Demo SQL collaborators: the tool and the summarizer both succeed. -/
def demoSqlEnv : SqlEnv :=
  { toolRun := Except.ok "[(42,)]",
    summarize := Except.ok "Se encontraron 42 episodios en la base de datos." }

/-- Demo search collaborators: the tool and the summarizer both succeed. -/
def demoSearchEnv : SearchEnv :=
  { toolRun := Except.ok "resultados web crudos",
    summarize := Except.ok "Los estudios indican una prevalencia del uno por ciento." }

/-- Demo Python collaborators: generation, execution and summary succeed. -/
def demoPythonEnv : PyEnv :=
  { gencode := Except.ok "print(1)",
    execRun := Except.ok "1",
    summarize := Except.ok "El cálculo dio como resultado uno." }

/-- Demo diagram collaborators: generation and description succeed. -/
def demoDiagramEnv : DiagramEnv :=
  { gen := Except.ok "flowchart TD",
    describe := Except.ok "Un diagrama de flujo del proceso." }

/-- Demo environment in which every handler succeeds. -/
def demoEnvs : Envs :=
  { sql := demoSqlEnv, search := demoSearchEnv,
    python := demoPythonEnv, diagram := demoDiagramEnv }

/-- SQL collaborators whose database tool raises. -/
def errSqlEnv : SqlEnv :=
  { toolRun := Except.error "ORA-12170 tiempo de espera agotado",
    summarize := Except.ok "irrelevante" }

/-- Environment in which exactly the SQL handler raises internally. -/
def errEnvs : Envs :=
  { sql := errSqlEnv, search := demoSearchEnv,
    python := demoPythonEnv, diagram := demoDiagramEnv }

/-- A state holding one error-flagged TaskResult, for the C6 witness. -/
def demoErrState : AgentState :=
  { user_query := "pregunta", chat_history := [],
    routing_decision := [],
    specialist_summaries :=
      [{ specialist := "database",
         summary := "No se pudo consultar la base de datos: fallo",
         tool_used := "oracle_database_query", error := true, has_code := false }],
    final_response := "", tools_used := [], has_errors := false }

/-- Counterexample to C1 as stated: in the graph (chat) path the
operator.add reducer on specialist_summaries re-adds the full state each
node returns, so at the registry-valid, duplicate-free Routing Decision
["sql_specialist", "search_specialist"] the final state holds 12
TaskResults, not |R| = 2. -/
theorem spec_C1_cex :
    (workflowFromRouting demoEnvs (Except.ok "respuesta")
        ["sql_specialist", "search_specialist"] "pregunta" []).map
        (fun fs => fs.specialist_summaries.length) = some 12 ∧
    (["sql_specialist", "search_specialist"] : List String).length = 2 ∧
    (12 : Nat) ≠ 2 := by
  refine ⟨?_, rfl, by decide⟩
  decide

/-- Claim C1 (amended): for every valid Routing Decision R (identifiers
drawn from the registry, without duplicates), the streaming path
(chat_stream) produces a specialist_summaries list of length |R| with
specialist entries in exactly R's order; the graph path (chat /
workflow.invoke) still completes, each queued handler's TaskResult appears
in the final completed-results channel, but the operator.add reducer re-adds
the accumulated list after every node, so that channel is the duplicated
expansion of length 2 ^ (|R| + 2) - 4, which strictly exceeds |R| whenever
R is non-empty. -/
theorem spec_C1 (R : List String) (envs : Envs) (genv : Except String String)
    (q : String) (hist : List ChatMsg)
    (hval : ∀ c ∈ R, c ∈ validSpecialists) (hnd : R.Nodup) :
    ((chatStreamFromRouting envs genv R q hist).2.specialist_summaries.length = R.length ∧
      (chatStreamFromRouting envs genv R q hist).2.specialist_summaries.map
          (fun e => e.specialist) = R.map specialistLabel) ∧
    (∃ fs, workflowFromRouting envs genv R q hist = some fs ∧
        fs.specialist_summaries = reducerFold envs R [] ++ reducerFold envs R [] ∧
        fs.specialist_summaries.length + 4 = 2 ^ (R.length + 2) ∧
        (∀ x ∈ R, entryOf envs x ∈ fs.specialist_summaries) ∧
        (R ≠ [] → R.length < fs.specialist_summaries.length)) := by
  have hflat := flatMap_handlerOutput_eq envs R hval
  constructor
  · constructor
    · rw [chatStream_final_summaries, hflat, List.length_map]
    · rw [chatStream_final_summaries, hflat]
      exact map_entryOf_specialist envs hval
  · refine ⟨_, workflowFromRouting_eq envs genv R q hist hval hnd, rfl, ?_, ?_, ?_⟩
    · have hlen := reducerFold_length envs R [] hval
      show (reducerFold envs R [] ++ reducerFold envs R []).length + 4 = 2 ^ (R.length + 2)
      rw [List.length_append]
      have hp : 2 ^ (R.length + 2) = 2 ^ R.length * 4 := by ring
      simp only [List.length_nil] at hlen
      omega
    · intro x hx
      show entryOf envs x ∈ reducerFold envs R [] ++ reducerFold envs R []
      rw [List.mem_append]
      left
      rw [reducerFold_mem]
      right
      exact ⟨x, hx, by rw [handlerOutput_valid envs (hval x hx)]; simp⟩
    · intro hne
      have hlen := reducerFold_length envs R [] hval
      show R.length < (reducerFold envs R [] ++ reducerFold envs R []).length
      rw [List.length_append]
      have h2 : R.length < 2 ^ R.length := Nat.lt_two_pow R.length
      have h0 : R.length ≠ 0 := by
        intro h
        exact hne (List.length_eq_zero.mp h)
      simp only [List.length_nil] at hlen
      omega

/-- Witness for C1 at the concrete Routing Decision
["search_specialist", "sql_specialist"]. -/
theorem spec_C1_witness :
    ((chatStreamFromRouting demoEnvs (Except.ok "respuesta final")
        ["search_specialist", "sql_specialist"] "pregunta" []).2.specialist_summaries.length = 2 ∧
      (chatStreamFromRouting demoEnvs (Except.ok "respuesta final")
        ["search_specialist", "sql_specialist"] "pregunta" []).2.specialist_summaries.map
          (fun e => e.specialist) = ["internet_search", "database"]) ∧
    (∃ fs, workflowFromRouting demoEnvs (Except.ok "respuesta final")
        ["search_specialist", "sql_specialist"] "pregunta" [] = some fs ∧
        fs.specialist_summaries =
          reducerFold demoEnvs ["search_specialist", "sql_specialist"] []
            ++ reducerFold demoEnvs ["search_specialist", "sql_specialist"] [] ∧
        fs.specialist_summaries.length + 4 = 16 ∧
        (∀ x ∈ (["search_specialist", "sql_specialist"] : List String),
            entryOf demoEnvs x ∈ fs.specialist_summaries) ∧
        ((["search_specialist", "sql_specialist"] : List String) ≠ [] →
          2 < fs.specialist_summaries.length)) :=
  spec_C1 ["search_specialist", "sql_specialist"] demoEnvs (Except.ok "respuesta final")
    "pregunta" [] (by decide) (by decide)

/-- Counterexample to C2 as stated: the classification collaborator succeeds
with a proposal that filters to the empty list, yet the Router does not
return an empty Routing Decision; it falls back to ["sql_specialist"]. -/
theorem spec_C2_cex :
    validateProposal ["consulta_general"] = [] ∧
    route (Except.ok ["consulta_general"]) = ["sql_specialist"] ∧
    route (Except.ok ["consulta_general"]) ≠ [] := by
  refine ⟨rfl, rfl, ?_⟩
  decide

/-- Claim C2 (amended): when the classification collaborator succeeds but its
proposal filters to the empty list, the Router falls back to the default
sql_specialist capability, the same fallback used when the collaborator
fails; the Router never returns an empty Routing Decision. -/
theorem spec_C2 (p : List String) (hfilter : validateProposal p = []) :
    analyzeQuery p = ["sql_specialist"] ∧
      ∀ orc : Except String (List String), route orc ≠ [] := by
  constructor
  · simp [analyzeQuery, hfilter]
  · exact route_ne_nil

/-- Witness for C2 at the concrete proposal ["consulta_general"]. -/
theorem spec_C2_witness :
    validateProposal ["consulta_general"] = [] ∧
    (analyzeQuery ["consulta_general"] = ["sql_specialist"] ∧
      ∀ orc : Except String (List String), route orc ≠ []) :=
  ⟨by decide, spec_C2 ["consulta_general"] (by decide)⟩

/-- Counterexample to C3 as stated: a fatal-error-free streaming run over the
validated Routing Decision ["sql_specialist"] emits the type sequence
thinking, thinking, routing, specialist_start, specialist_complete,
synthesizing, complete (two thinking frames, seven events), not the claimed
six-event sequence with a single thinking frame. -/
theorem spec_C3_cex :
    ((chatStreamFromRouting demoEnvs (Except.ok "respuesta") ["sql_specialist"]
        "pregunta" []).1).map SSEvent.etype
      = [EvTag.thinking, EvTag.thinking, EvTag.routing, EvTag.specialist_start,
         EvTag.specialist_complete, EvTag.synthesizing, EvTag.complete] ∧
    ((chatStreamFromRouting demoEnvs (Except.ok "respuesta") ["sql_specialist"]
        "pregunta" []).1).map SSEvent.etype
      ≠ [EvTag.thinking, EvTag.routing, EvTag.specialist_start,
         EvTag.specialist_complete, EvTag.synthesizing, EvTag.complete] := by
  constructor
  · decide
  · decide

/-- Claim C3 (amended): for every streaming run with validated Routing
Decision [c1, ..., cn] and no fatal error, the emitted type sequence is
exactly thinking, thinking, routing, specialist_start(c1),
specialist_complete(c1), ..., specialist_start(cn), specialist_complete(cn),
synthesizing, complete (2n+5 events); for n = 0 exactly 5 events would be
emitted. -/
theorem spec_C3 (R : List String) (envs : Envs) (genv : Except String String)
    (q : String) (hist : List ChatMsg) :
    ((chatStreamFromRouting envs genv R q hist).1).map SSEvent.etype
      = [EvTag.thinking, EvTag.thinking, EvTag.routing]
          ++ R.flatMap (fun _ => [EvTag.specialist_start, EvTag.specialist_complete])
          ++ [EvTag.synthesizing, EvTag.complete] ∧
    ((chatStreamFromRouting envs genv R q hist).1).filterMap SSEvent.startName = R ∧
    ((chatStreamFromRouting envs genv R q hist).1).filterMap SSEvent.completeName = R ∧
    ((chatStreamFromRouting envs genv ([] : List String) q hist).1).length = 5 := by
  refine ⟨chatStream_map_etype envs genv R q hist,
    chatStream_filterMap_startName envs genv R q hist,
    chatStream_filterMap_completeName envs genv R q hist, ?_⟩
  rfl

/-- Claim C4: when exactly one handler raises internally, its TaskResult is
error-flagged, every specialist in the Routing Decision (later ones
included) still executes and its TaskResult reaches the completed-results
channel, the run reaches the synthesizer, the Final Result has
has_errors = true, and the exception never escapes the engine (the graph
run returns a result); the error-flagged entries of the channel are exactly
the raising handler's.  The channel itself carries the operator.add
reducer duplication of the graph path. -/
theorem spec_C4 (R : List String) (envs : Envs) (genv : Except String String)
    (q : String) (hist : List ChatMsg) (c : String)
    (hval : ∀ x ∈ R, x ∈ validSpecialists) (hnd : R.Nodup) (hc : c ∈ R)
    (herr : (entryOf envs c).error = true)
    (hothers : ∀ x ∈ R, x ≠ c → (entryOf envs x).error = false) :
    ∃ fs, workflowFromRouting envs genv R q hist = some fs ∧
      (∀ x ∈ R, entryOf envs x ∈ fs.specialist_summaries) ∧
      (∀ e ∈ fs.specialist_summaries, e.error = true → e = entryOf envs c) ∧
      fs.has_errors = true := by
  have hcmem : entryOf envs c ∈ reducerFold envs R [] := by
    rw [reducerFold_mem]
    right
    exact ⟨c, hc, by rw [handlerOutput_valid envs (hval c hc)]; simp⟩
  refine ⟨_, workflowFromRouting_eq envs genv R q hist hval hnd, ?_, ?_, ?_⟩
  · intro x hx
    show entryOf envs x ∈ reducerFold envs R [] ++ reducerFold envs R []
    rw [List.mem_append]
    left
    rw [reducerFold_mem]
    right
    exact ⟨x, hx, by rw [handlerOutput_valid envs (hval x hx)]; simp⟩
  · intro e he herre
    have he2 : e ∈ reducerFold envs R [] := by
      have he3 : e ∈ reducerFold envs R [] ++ reducerFold envs R [] := he
      rw [List.mem_append] at he3
      rcases he3 with h | h <;> exact h
    rw [reducerFold_mem] at he2
    rcases he2 with h | ⟨x, hxR, hex⟩
    · simp at h
    · rw [handlerOutput_valid envs (hval x hxR), List.mem_singleton] at hex
      subst hex
      by_cases hxc : x = c
      · rw [hxc]
      · rw [hothers x hxR hxc] at herre
        simp at herre
  · cases genv with
    | error e => rfl
    | ok resp =>
      show (reducerFold envs R []).any (fun e : SummaryEntry => e.error) = true
      rw [List.any_eq_true]
      exact ⟨entryOf envs c, hcmem, herr⟩

/-- Witness for C4: in the queue ["sql_specialist", "search_specialist"]
exactly the SQL handler's tool raises. -/
theorem spec_C4_witness :
    (∃ fs, workflowFromRouting errEnvs (Except.ok "respuesta final")
        ["sql_specialist", "search_specialist"] "pregunta" [] = some fs ∧
      (∀ x ∈ (["sql_specialist", "search_specialist"] : List String),
          entryOf errEnvs x ∈ fs.specialist_summaries) ∧
      (∀ e ∈ fs.specialist_summaries, e.error = true →
          e = entryOf errEnvs "sql_specialist") ∧
      fs.has_errors = true) ∧
    (workflowFromRouting errEnvs (Except.ok "respuesta final")
        ["sql_specialist", "search_specialist"] "pregunta" []).map
        (fun fs => fs.has_errors) = some true :=
  ⟨spec_C4 ["sql_specialist", "search_specialist"] errEnvs (Except.ok "respuesta final")
      "pregunta" [] "sql_specialist" (by decide) (by decide) (by decide) (by decide)
      (by decide),
    by decide⟩

/-- SQL collaborators whose tool succeeds but whose summarizer raises, for
the C5 fallback branch. -/
def failSumSqlEnv : SqlEnv :=
  { toolRun := Except.ok "[(42,)]",
    summarize := Except.error "timeout del LLM" }

/-- Counterexample to C5 as stated: the diagram handler's TaskResult summary
contains a code fence (and the generated Mermaid source inside it), so it is
not free of raw technical payload. -/
theorem spec_C5_cex :
    containsMarker "```" (diagramEntry demoDiagramEnv).summary = true ∧
    (diagramSpecialistExecute demoDiagramEnv).length = 1 := by
  constructor
  · have h : (diagramEntry demoDiagramEnv).summary
        = ("Un diagrama de flujo del proceso.").trim ++ "\n\n"
            ++ ("```mermaid\n" ++ cleanMermaid "flowchart TD" ++ "\n```") := rfl
    rw [h]
    exact containsMarker_fence _ _ _ (by decide)
  · rfl

/-- Claim C5 (amended): the sql, search and python handlers' normal-path
summaries are the summarizer LLM's text, but the no-raw-payload invariant
does not hold for every handler: the diagram handler's summary deliberately
embeds the generated Mermaid source inside a fenced code block (flagged
has_code), and when the SQL summarizer LLM raises, the fallback summary
embeds the first 200 characters of the raw database result. -/
theorem spec_C5 (denv : DiagramEnv) (content d : String)
    (hg : denv.gen = Except.ok content) (hd : denv.describe = Except.ok d)
    (senv : SqlEnv) (raw em : String)
    (ht : senv.toolRun = Except.ok raw) (hs : senv.summarize = Except.error em) :
    diagramSpecialistExecute denv =
      [{ specialist := "diagram_visualization",
         summary := d.trim ++ "\n\n" ++ ("```mermaid\n" ++ cleanMermaid content ++ "\n```"),
         tool_used := "mermaid_diagram", error := false, has_code := true }] ∧
    containsMarker "```mermaid" (diagramEntry denv).summary = true ∧
    sqlSpecialistExecute senv =
      [{ specialist := "database",
         summary := "Consulta ejecutada. Resultados: " ++ raw.take 200 ++ "...",
         tool_used := "oracle_database_query", error := false, has_code := false }] := by
  obtain ⟨g, dd⟩ := denv
  obtain ⟨t, m⟩ := senv
  replace hg : g = Except.ok content := hg
  replace hd : dd = Except.ok d := hd
  replace ht : t = Except.ok raw := ht
  replace hs : m = Except.error em := hs
  subst hg
  subst hd
  subst ht
  subst hs
  refine ⟨rfl, ?_, rfl⟩
  have h : (diagramEntry { gen := Except.ok content, describe := Except.ok d }).summary
      = d.trim ++ "\n\n" ++ ("```mermaid\n" ++ cleanMermaid content ++ "\n```") := rfl
  rw [h]
  exact containsMarker_fence _ _ _ (by decide)

/-- Witness for C5 at concrete collaborator outputs. -/
theorem spec_C5_witness :
    diagramSpecialistExecute demoDiagramEnv =
      [{ specialist := "diagram_visualization",
         summary := ("Un diagrama de flujo del proceso.").trim ++ "\n\n"
           ++ ("```mermaid\n" ++ cleanMermaid "flowchart TD" ++ "\n```"),
         tool_used := "mermaid_diagram", error := false, has_code := true }] ∧
    containsMarker "```mermaid" (diagramEntry demoDiagramEnv).summary = true ∧
    sqlSpecialistExecute failSumSqlEnv =
      [{ specialist := "database",
         summary := "Consulta ejecutada. Resultados: " ++ ("[(42,)]").take 200 ++ "...",
         tool_used := "oracle_database_query", error := false, has_code := false }] :=
  spec_C5 demoDiagramEnv "flowchart TD" "Un diagrama de flujo del proceso." rfl rfl
    failSumSqlEnv "[(42,)]" "timeout del LLM" rfl rfl

/-- Claim C6: for every run whose composition generation succeeds, the Final
Result's has_errors is true iff some TaskResult carries the error flag, and
tools_used lists one entry per completed TaskResult, errored ones included. -/
theorem spec_C6 (genv : Except String String) (resp : String) (s : AgentState)
    (hok : genv = Except.ok resp) :
    ((synthesizerNode genv s).has_errors = true ↔
        ∃ e ∈ s.specialist_summaries, e.error = true) ∧
    (synthesizerNode genv s).tools_used
        = s.specialist_summaries.map (fun e => e.tool_used) := by
  subst hok
  constructor
  · show (s.specialist_summaries.any (fun e => e.error)) = true ↔ _
    exact List.any_eq_true
  · rfl

/-- Witness for C6 at a state holding one error-flagged TaskResult. -/
theorem spec_C6_witness :
    ((synthesizerNode (Except.ok "respuesta") demoErrState).has_errors = true ↔
        ∃ e ∈ demoErrState.specialist_summaries, e.error = true) ∧
    (synthesizerNode (Except.ok "respuesta") demoErrState).tools_used
        = demoErrState.specialist_summaries.map (fun e => e.tool_used) :=
  spec_C6 (Except.ok "respuesta") "respuesta" demoErrState rfl

/-- Claim C7: the Router's filter keeps exactly the registry-known
identifiers of the proposal, preserving relative order, and a proposal of
one valid and one invalid name yields a queue with only the valid one,
with no run-level failure. -/
theorem spec_C7 (proposal : List String) (v i : String)
    (hv : v ∈ validSpecialists) (hi : i ∉ validSpecialists) :
    (validateProposal proposal).Sublist proposal ∧
    (∀ s, s ∈ validateProposal proposal ↔ s ∈ proposal ∧ s ∈ validSpecialists) ∧
    validateProposal [v, i] = [v] ∧
    analyzeQuery [v, i] = [v] := by
  have hvi : validateProposal [v, i] = [v] := by
    simp [validateProposal, hv, hi]
  refine ⟨List.filter_sublist _, ?_, hvi, ?_⟩
  · intro x
    simp [validateProposal, List.mem_filter]
  · simp [analyzeQuery, hvi]

/-- Witness for C7 at the proposal ["sql_specialist", "tarot_specialist"]. -/
theorem spec_C7_witness :
    ((validateProposal ["sql_specialist", "tarot_specialist"]).Sublist
        ["sql_specialist", "tarot_specialist"]) ∧
    (∀ s, s ∈ validateProposal ["sql_specialist", "tarot_specialist"] ↔
        s ∈ ["sql_specialist", "tarot_specialist"] ∧ s ∈ validSpecialists) ∧
    validateProposal ["sql_specialist", "tarot_specialist"] = ["sql_specialist"] ∧
    analyzeQuery ["sql_specialist", "tarot_specialist"] = ["sql_specialist"] :=
  spec_C7 ["sql_specialist", "tarot_specialist"] "sql_specialist" "tarot_specialist"
    (by decide) (by decide)

/-- Counterexample to C8 as stated: when the Composer's generation
collaborator raises, the streaming run emits no error frame; the sequence
still ends with synthesizing and complete, and the complete frame carries the
error text with has_errors = true. -/
theorem spec_C8_cex :
    ((chatStreamFromRouting demoEnvs (Except.error "fallo de red") ["sql_specialist"]
        "pregunta" []).1).filterMap SSEvent.errorData = [] ∧
    ((chatStreamFromRouting demoEnvs (Except.error "fallo de red") ["sql_specialist"]
        "pregunta" []).1).map SSEvent.etype
      = [EvTag.thinking, EvTag.thinking, EvTag.routing, EvTag.specialist_start,
         EvTag.specialist_complete, EvTag.synthesizing, EvTag.complete] ∧
    ((chatStreamFromRouting demoEnvs (Except.error "fallo de red") ["sql_specialist"]
        "pregunta" []).1).filterMap SSEvent.completeData
      = [("Error al generar la respuesta: fallo de red", [], true)] := by
  refine ⟨?_, ?_, ?_⟩ <;> decide

/-- Claim C8 (amended): if the Composer's generation collaborator raises, the
failure is caught inside the synthesizer, which returns the error text as the
response with has_errors = true and empty tools_used; the streaming sequence
is not truncated and no error frame is emitted: it still ends with
synthesizing and a complete frame carrying the error text. -/
theorem spec_C8 (envs : Envs) (em : String) (R : List String)
    (q : String) (hist : List ChatMsg) (s : AgentState) :
    synthesize (Except.error em) s =
      { final_response := "Error al generar la respuesta: " ++ em,
        tools_used := [], has_errors := true } ∧
    ((chatStreamFromRouting envs (Except.error em) R q hist).1).filterMap
        SSEvent.errorData = [] ∧
    ((chatStreamFromRouting envs (Except.error em) R q hist).1).filterMap
        SSEvent.completeData
      = [("Error al generar la respuesta: " ++ em, [], true)] ∧
    ((chatStreamFromRouting envs (Except.error em) R q hist).1).map SSEvent.etype
      = [EvTag.thinking, EvTag.thinking, EvTag.routing]
          ++ R.flatMap (fun _ => [EvTag.specialist_start, EvTag.specialist_complete])
          ++ [EvTag.synthesizing, EvTag.complete] := by
  refine ⟨rfl, chatStream_filterMap_errorData envs (Except.error em) R q hist, ?_,
    chatStream_map_etype envs (Except.error em) R q hist⟩
  rw [chatStream_filterMap_completeData]
  rfl

/-- Claim C9: every non-streaming chat response has intermediate_steps = [],
whatever the collaborators do and whatever errors occur. -/
theorem spec_C9 (orc : Except String (List String)) (envs : Envs)
    (genv : Except String String) (message : String) (hist : List ChatMsg) :
    (chatEndpoint orc envs genv message hist).intermediate_steps = [] := rfl

/-- Claim C10: the streaming loop iterates the captured routing list while
each specialist node rebinds the state's routing_decision to a copy with its
own first occurrence removed; a Routing Decision containing a capability k
times therefore executes that handler k times, emits k start/complete frame
pairs and accumulates k summaries, without stalling or erroring. -/
theorem spec_C10 (R : List String) (envs : Envs) (genv : Except String String)
    (q : String) (hist : List ChatMsg)
    (hval : ∀ x ∈ R, x ∈ validSpecialists) :
    (chatStreamFromRouting envs genv R q hist).2.specialist_summaries
        = R.flatMap (handlerOutput envs) ∧
    (chatStreamFromRouting envs genv R q hist).2.specialist_summaries.length = R.length ∧
    (chatStreamFromRouting envs genv R q hist).2.specialist_summaries.map
        (fun e => e.specialist) = R.map specialistLabel ∧
    ((chatStreamFromRouting envs genv R q hist).1).filterMap SSEvent.startName = R ∧
    ((chatStreamFromRouting envs genv R q hist).1).filterMap SSEvent.completeName = R ∧
    (∀ name s, (specialistNode envs name s).routing_decision
        = s.routing_decision.erase name) := by
  have hflat := flatMap_handlerOutput_eq envs R hval
  refine ⟨chatStream_final_summaries envs genv R q hist, ?_, ?_,
    chatStream_filterMap_startName envs genv R q hist,
    chatStream_filterMap_completeName envs genv R q hist,
    fun name s => rfl⟩
  · rw [chatStream_final_summaries, hflat, List.length_map]
  · rw [chatStream_final_summaries, hflat]
    exact map_entryOf_specialist envs hval

/-- Witness for C10 at the duplicated Routing Decision
["sql_specialist", "sql_specialist"] (k = 2). -/
theorem spec_C10_witness :
    (chatStreamFromRouting demoEnvs (Except.ok "respuesta")
        ["sql_specialist", "sql_specialist"] "pregunta" []).2.specialist_summaries
        = (["sql_specialist", "sql_specialist"] : List String).flatMap
            (handlerOutput demoEnvs) ∧
    (chatStreamFromRouting demoEnvs (Except.ok "respuesta")
        ["sql_specialist", "sql_specialist"] "pregunta" []).2.specialist_summaries.length
        = 2 ∧
    (chatStreamFromRouting demoEnvs (Except.ok "respuesta")
        ["sql_specialist", "sql_specialist"] "pregunta" []).2.specialist_summaries.map
        (fun e => e.specialist) = ["database", "database"] ∧
    ((chatStreamFromRouting demoEnvs (Except.ok "respuesta")
        ["sql_specialist", "sql_specialist"] "pregunta" []).1).filterMap SSEvent.startName
        = ["sql_specialist", "sql_specialist"] ∧
    ((chatStreamFromRouting demoEnvs (Except.ok "respuesta")
        ["sql_specialist", "sql_specialist"] "pregunta" []).1).filterMap SSEvent.completeName
        = ["sql_specialist", "sql_specialist"] ∧
    (∀ name s, (specialistNode demoEnvs name s).routing_decision
        = s.routing_decision.erase name) :=
  spec_C10 ["sql_specialist", "sql_specialist"] demoEnvs (Except.ok "respuesta")
    "pregunta" [] (by decide)
